import Mathlib

/-!
Shallow embedding of the Bytestore resumable multipart upload engine
(`backend/services/upload_service.py`, `backend/services/base.py`,
`backend/services/file_service.py`, `backend/background.py` and the
SQLAlchemy models in `backend/models/`).

The relational store is a value of type `DB` (lists of rows); SQLAlchemy
sessions are modelled by pure state passing: a pending mutation is either
committed (the new `DB` is returned) or rolled back (the original `DB` is
returned).  The boto3 S3 client is modelled as a function from requests to
responses; every operation additionally returns the list of S3 requests it
issued, in order, so that theorems can speak about what the object-storage
gateway received.  UUIDs (primary keys and the random component of storage
keys) are determinized by a fresh-id counter `DB.nextId`.  Timestamps are
integers (seconds); `now` is passed to every operation that can touch a
`files` row, mirroring the `onupdate=func.now()` column default.
-/

deriving instance DecidableEq for Except

namespace Bytestore

/-! ## Data model (backend/models) -/

/-- `FileStatus` enum from `models/file.py`. -/
inductive FileStatus
  | initiated
  | completed
  | failed
  | deleted
deriving DecidableEq, Repr

/-- `UploadStatus` enum from `models/uploads.py`. -/
inductive UploadStatus
  | inprogress
  | completed
  | aborted
deriving DecidableEq, Repr

/-- One row of the `files` table (`models/file.py`).  The columns are
exactly the ones the `File` model maps: `id`, `user_id`, `name`, `size`,
`mime`, `folder_id`, `storage_key`, `status` and the timestamps (only
`updated_at` is kept, because only it is ever read, by the reaper). -/
structure FileRec where
  id : Nat
  user_id : Nat
  name : String
  size : Nat
  mime : Option String
  folder_id : Option Nat
  storage_key : String
  status : FileStatus
  updated_at : Int
deriving DecidableEq, Repr

/-- One row of the `uploads` table (`models/uploads.py`). -/
structure UploadRec where
  id : Nat
  file_id : Nat
  upload_id : String
  file_fingerprint : String
  chunk_size : Nat
  total_parts : Nat
  status : UploadStatus
deriving DecidableEq, Repr

/-- One row of the `upload_parts` table (`models/upload_parts.py`);
primary key is the pair `(upload_id, part_number)`. -/
structure UploadPartRec where
  upload_id : Nat
  part_number : Int
  etag : String
deriving DecidableEq, Repr

/-- One row of the `folders` table (`models/folder.py`); only the columns
the upload engine reads. -/
structure FolderRec where
  id : Nat
  user_id : Nat
  path : String
deriving DecidableEq, Repr

/-- The relational store.  `nextId` determinizes `uuid.uuid4()`. -/
structure DB where
  files : List FileRec
  uploads : List UploadRec
  parts : List UploadPartRec
  folders : List FolderRec
  nextId : Nat
deriving DecidableEq, Repr

/-! ## Object-storage gateway (boto3 S3 client for R2) -/

/-- One element of the `Parts` list sent to `complete_multipart_upload`. -/
structure S3Part where
  ETag : String
  PartNumber : Int
deriving DecidableEq, Repr

/-- A request issued to the S3 client. -/
inductive S3Req
  | create_multipart_upload (bucket key : String) (contentType : Option String)
  | generate_presigned_url (bucket key upload_id : String) (partNumber : Int) (expiresIn : Nat)
  | complete_multipart_upload (bucket key upload_id : String) (parts : List S3Part)
  | abort_multipart_upload (bucket key upload_id : String)
deriving DecidableEq, Repr

/-- Response of the S3 client: success (with the `UploadId` for a create,
the url for a presign, ignored otherwise) or a botocore `ClientError`. -/
inductive S3Resp
  | ok (payload : String)
  | clientError (msg : String)
deriving DecidableEq, Repr

/-- The remote object-storage service, as an oracle. -/
def S3Client : Type := S3Req → S3Resp

/-- `settings.R2_BUCKET_NAME` (process configuration; an arbitrary fixed
bucket name). -/
def R2_BUCKET_NAME : String := "bytestore-bucket"

/-- Python exceptions that the embedded operations can surface. -/
inductive PyErr
  | fileUploadException (msg : String)
  | attributeError (attr : String)
deriving DecidableEq, Repr

/-! ## BaseService constants (backend/services/base.py) -/

/-- `self.PART_SIZE = 5 * 1024 * 1024` -/
def PART_SIZE : Nat := 5 * 1024 * 1024

/-- `self.PRESIGNED_URL_EXPIRY = 3600` -/
def PRESIGNED_URL_EXPIRY : Nat := 3600

/-! ## Row lookups (query helpers and ORM relationships) -/

/-- `FileService.get_file_by_id`: first `files` row matching id and owner. -/
def get_file_by_id (db : DB) (file_id user_id : Nat) : Option FileRec :=
  (db.files.filter (fun f => f.id == file_id && f.user_id == user_id)).head?

/-- `FolderService.get_folder_by_id`: first `folders` row matching id and
owner. -/
def get_folder_by_id (db : DB) (folder_id user_id : Nat) : Option FolderRec :=
  (db.folders.filter (fun fo => fo.id == folder_id && fo.user_id == user_id)).head?

/-- The `File.upload` relationship (`uselist=False`): the `uploads` row
whose `file_id` references the file. -/
def file_upload (db : DB) (f : FileRec) : Option UploadRec :=
  (db.uploads.filter (fun u => u.file_id == f.id)).head?

/-- The `Upload.parts` relationship: all `upload_parts` rows of an upload,
in insertion order. -/
def upload_parts (db : DB) (upload_id : Nat) : List UploadPartRec :=
  db.parts.filter (fun p => p.upload_id == upload_id)

/-- `UploadService._get_upload_by_fingerprint`:
`query(Upload).join(Upload.file).filter(fingerprint, INPROGRESS).first()`.
The inner join pairs each upload with its file and drops uploads whose
`file_id` matches no file row. -/
def get_upload_by_fingerprint (db : DB) (fingerprint : String) :
    Option (UploadRec × FileRec) :=
  ((db.uploads.filterMap (fun u =>
      match (db.files.filter (fun f => f.id == u.file_id)).head? with
      | some f => some (u, f)
      | none => none)).filter (fun uf =>
      uf.1.file_fingerprint == fingerprint &&
      uf.1.status == UploadStatus.inprogress)).head?

/-! ## Storage-key generation (backend/services/base.py) -/

/-- Index of the last occurrence of `c` in `s`, Python `str.rfind` style:
`-1` when absent. -/
def rfind (s : List Char) (c : Char) : Int :=
  match s.reverse.indexOf? c with
  | none => -1
  | some i => (s.length : Int) - 1 - (i : Int)

/-- `os.path.splitext` (posixpath): splits off the extension at the last
dot, unless every character of the basename up to that dot is itself a
dot. -/
def splitext (p : String) : String × String :=
  let s := p.toList
  let sepIndex := rfind s '/'
  let dotIndex := rfind s '.'
  if sepIndex < dotIndex then
    if (List.range s.length).any (fun j =>
        decide (sepIndex < (j : Int) ∧ (j : Int) < dotIndex) &&
        (s.getD j '.' != '.')) then
      (⟨s.take dotIndex.toNat⟩, ⟨s.drop dotIndex.toNat⟩)
    else (p, "")
  else (p, "")

/-- Python `str.strip(c)`. -/
def pyStrip (s : String) (c : Char) : String :=
  ⟨((s.toList.dropWhile (· == c)).reverse.dropWhile (· == c)).reverse⟩

/-- Python `str.replace(a, b)` for single characters. -/
def pyReplaceChar (s : String) (a b : Char) : String :=
  ⟨s.toList.map (fun c => if c == a then b else c)⟩

/-- `BaseService._generate_storage_key`.  `unique_id` stands for the
`uuid.uuid4()` drawn inside the function (the caller passes the fresh
value).  When a folder id is supplied, the folder is looked up with owner
scoping; a missing folder silently falls back to the owner-root key. -/
def generate_storage_key (db : DB) (user_id : Nat) (filename : String)
    (folder_id : Option Nat) (unique_id : String) : String :=
  let file_ext := (splitext filename).2
  let base_name := (splitext filename).1
  match folder_id with
  | some fid =>
    match get_folder_by_id db fid user_id with
    | some folder =>
      let folder_path :=
        pyReplaceChar (pyReplaceChar (pyStrip folder.path '/') ' ' '_') '/' '_'
      s!"users/{user_id}/{folder_path}/{unique_id}_{base_name}{file_ext}"
    | none => s!"users/{user_id}/{unique_id}_{base_name}{file_ext}"
  | none => s!"users/{user_id}/{unique_id}_{base_name}{file_ext}"

/-! ## Operation results (response dict shapes) -/

/-- A `{part_number, etag}` dict, as listed in initiate responses and in
the request body of `complete`. -/
structure PartInfo where
  part_number : Int
  etag : String
deriving DecidableEq, Repr

/-- Result dict of `initiate_multipart_upload`. -/
structure InitiateResult where
  file_id : Nat
  upload_id : String
  part_size : Nat
  total_parts : Nat
  uploaded_parts : List PartInfo
deriving DecidableEq, Repr

/-- Result dict of `generate_presigned_url_for_part`. -/
structure PresignResult where
  url : String
  part_number : Int
  expires_in : Nat
deriving DecidableEq, Repr

/-- Result dict of `mark_part_uploaded`. -/
structure AckResult where
  uploaded_parts : Nat
  total_parts : Nat
deriving DecidableEq, Repr

/-! ## UploadService operations (backend/services/upload_service.py) -/

/-- Non-resume arm of `initiate_multipart_upload` (lines 77-124): generate
a storage key, compute `total_parts = math.ceil(size / PART_SIZE)`, open
the remote multipart session, and only then persist one `files` row and
one `uploads` row in a single commit.  A `ClientError` from the gateway is
re-raised as `FileUploadException` with nothing written.

The commit enforces the schema's foreign keys.  The one that can fire is
`files.folder_id -> folders.id` (`files_folder_id_fkey`, `models/file.py`
and migration 001): it requires the referenced folders row to exist, for
any owner — unlike the storage-key lookup, which is owner-scoped.  A
dangling `folder_id` makes the commit raise `IntegrityError`, which the
generic `except Exception` handler rolls back and re-raises as
`FileUploadException(f"Error initiating multipart upload: {str(e)}")`
(the embedded message stands for the database driver's `str(e)`).  The
other foreign keys cannot fire here: `files.user_id` references the
authenticated caller, who exists, and `uploads.file_id` references the
file row inserted in the same commit. -/
def initiate_new_upload (s3 : S3Client) (db : DB) (now : Int) (user_id : Nat)
    (filename : String) (size : Nat) (fingerprint : String)
    (mime_type : Option String) (folder_id : Option Nat) :
    Except PyErr InitiateResult × DB × List S3Req :=
  let unique_id := toString db.nextId
  let storage_key := generate_storage_key db user_id filename folder_id unique_id
  let total_parts := (size + PART_SIZE - 1) / PART_SIZE
  let req := S3Req.create_multipart_upload R2_BUCKET_NAME storage_key mime_type
  match s3 req with
  | S3Resp.clientError e =>
    (Except.error (PyErr.fileUploadException s!"Failed to initiate multipart upload: {e}"),
     db, [req])
  | S3Resp.ok upload_id =>
    let file_record : FileRec :=
      { id := db.nextId + 1, user_id := user_id, name := filename, size := size,
        mime := mime_type, folder_id := folder_id, storage_key := storage_key,
        status := FileStatus.initiated, updated_at := now }
    let upload_record : UploadRec :=
      { id := db.nextId + 2, file_id := file_record.id, upload_id := upload_id,
        file_fingerprint := fingerprint, chunk_size := PART_SIZE,
        total_parts := total_parts, status := UploadStatus.inprogress }
    let db2 : DB :=
      { db with files := db.files ++ [file_record],
                uploads := db.uploads ++ [upload_record],
                nextId := db.nextId + 3 }
    let committed : Except PyErr InitiateResult × DB × List S3Req :=
      (Except.ok { file_id := file_record.id, upload_id := upload_id,
                   part_size := PART_SIZE, total_parts := total_parts,
                   uploaded_parts := [] },
       db2, [req])
    match folder_id with
    | none => committed
    | some fid =>
      if db.folders.any (fun fo => fo.id == fid) then committed
      else
        (Except.error (PyErr.fileUploadException
           "Error initiating multipart upload: IntegrityError"), db, [req])

/-- `UploadService.initiate_multipart_upload`.  If an INPROGRESS upload
with this fingerprint exists, its session is returned with the already
acknowledged parts and nothing is created (resume path); otherwise the
non-resume arm runs. -/
def initiate_multipart_upload (s3 : S3Client) (db : DB) (now : Int)
    (user_id : Nat) (filename : String) (size : Nat) (fingerprint : String)
    (mime_type : Option String) (folder_id : Option Nat) :
    Except PyErr InitiateResult × DB × List S3Req :=
  match get_upload_by_fingerprint db fingerprint with
  | some (upload, file) =>
    if upload.status == UploadStatus.inprogress then
      (Except.ok { file_id := file.id, upload_id := upload.upload_id,
                   part_size := PART_SIZE, total_parts := upload.total_parts,
                   uploaded_parts := (upload_parts db upload.id).map
                     (fun p => { part_number := p.part_number, etag := p.etag }) },
       db, [])
    else
      initiate_new_upload s3 db now user_id filename size fingerprint mime_type folder_id
  | none =>
    initiate_new_upload s3 db now user_id filename size fingerprint mime_type folder_id

/-- `UploadService.generate_presigned_url_for_part`.  Pure validation
followed by a single presign call; records nothing. -/
def generate_presigned_url_for_part (s3 : S3Client) (db : DB)
    (file_id user_id : Nat) (part_number : Int) :
    Except PyErr PresignResult × DB × List S3Req :=
  match get_file_by_id db file_id user_id with
  | none => (Except.error (PyErr.fileUploadException "File not found or access denied"), db, [])
  | some file_record =>
    if file_record.status != FileStatus.initiated then
      (Except.error (PyErr.fileUploadException "Upload is not in progress"), db, [])
    else
      match file_upload db file_record with
      | none =>
        -- `file_record.upload` is None, so `.upload_id` raises AttributeError
        (Except.error (PyErr.attributeError "upload_id"), db, [])
      | some upload =>
        if upload.upload_id == "" then
          (Except.error (PyErr.fileUploadException "No active multipart upload for this file"), db, [])
        else if part_number < 1 || part_number > (upload.total_parts : Int) then
          (Except.error (PyErr.fileUploadException
            s!"Invalid part number. Must be between 1 and {upload.total_parts}"), db, [])
        else
          let req := S3Req.generate_presigned_url R2_BUCKET_NAME file_record.storage_key
            upload.upload_id part_number PRESIGNED_URL_EXPIRY
          match s3 req with
          | S3Resp.ok url =>
            (Except.ok { url := url, part_number := part_number,
                         expires_in := PRESIGNED_URL_EXPIRY }, db, [req])
          | S3Resp.clientError e =>
            (Except.error (PyErr.fileUploadException s!"Failed to generate presigned URL: {e}"), db, [req])

/-- `UploadService.mark_part_uploaded`.  Appends an `upload_parts` row and
commits; a duplicate `(upload_id, part_number)` violates the primary key,
the `IntegrityError` is caught, the session is rolled back and the
function falls off the end of the `except` clause, returning Python
`None` (modelled as `Except.ok none`).  Note there is no bounds check on
`part_number`.  No S3 request is ever issued. -/
def mark_part_uploaded (db : DB) (file_id user_id : Nat) (part_number : Int)
    (etag : String) : Except PyErr (Option AckResult) × DB :=
  match get_file_by_id db file_id user_id with
  | none => (Except.error (PyErr.fileUploadException "File not found or access denied"), db)
  | some file_record =>
    -- `file.status != INITIATED or file.upload.status != INPROGRESS`,
    -- with Python short-circuit evaluation of `or`
    if file_record.status != FileStatus.initiated then
      (Except.error (PyErr.fileUploadException "Upload is not in progress"), db)
    else
      match file_upload db file_record with
      | none =>
        -- `file_record.upload` is None, so `.status` raises AttributeError
        (Except.error (PyErr.attributeError "status"), db)
      | some upload =>
        if upload.status != UploadStatus.inprogress then
          (Except.error (PyErr.fileUploadException "Upload is not in progress"), db)
        else if db.parts.any (fun p => p.upload_id == upload.id && p.part_number == part_number) then
          (Except.ok none, db)
        else
          let db2 : DB := { db with parts := db.parts ++
            [{ upload_id := upload.id, part_number := part_number, etag := etag }] }
          let uploaded_parts := (db2.parts.filter (fun p => p.upload_id == upload.id)).length
          (Except.ok (some { uploaded_parts := uploaded_parts,
                             total_parts := upload.total_parts }), db2)

/-- Python `sorted(parts, key=lambda x: x['part_number'])`: a stable sort
ascending by part number. -/
def sort_parts (parts : List PartInfo) : List PartInfo :=
  List.insertionSort (fun a b => a.part_number ≤ b.part_number) parts

instance : IsTotal PartInfo (fun a b => a.part_number ≤ b.part_number) :=
  ⟨fun a b => le_total a.part_number b.part_number⟩

instance : IsTrans PartInfo (fun a b => a.part_number ≤ b.part_number) :=
  ⟨fun _ _ _ hab hbc => le_trans hab hbc⟩

/-- `UploadService.complete_multipart_upload`.  The caller-supplied parts
are sorted ascending by part number and handed to the gateway; on success
File→COMPLETED / Upload→COMPLETED is committed, on `ClientError`
File→FAILED / Upload→ABORTED is committed and the error re-raised. -/
def complete_multipart_upload (s3 : S3Client) (db : DB) (now : Int)
    (file_id user_id : Nat) (parts : List PartInfo) :
    Except PyErr FileRec × DB × List S3Req :=
  match get_file_by_id db file_id user_id with
  | none => (Except.error (PyErr.fileUploadException "File not found or access denied"), db, [])
  | some file_record =>
    if file_record.status != FileStatus.initiated then
      (Except.error (PyErr.fileUploadException "Upload is not in progress"), db, [])
    else
      match file_upload db file_record with
      | none =>
        -- `file_record.upload` is None, so `.upload_id` raises AttributeError
        (Except.error (PyErr.attributeError "upload_id"), db, [])
      | some upload =>
        if upload.upload_id == "" then
          (Except.error (PyErr.fileUploadException "No active multipart upload for this file"), db, [])
        else
          let s3_parts := (sort_parts parts).map
            (fun p => { ETag := p.etag, PartNumber := p.part_number : S3Part })
          let req := S3Req.complete_multipart_upload R2_BUCKET_NAME
            file_record.storage_key upload.upload_id s3_parts
          match s3 req with
          | S3Resp.ok _ =>
            -- the fetched ORM objects are mutated and the session committed:
            -- the rows with their primary keys receive the updated values
            let file2 := { file_record with status := FileStatus.completed, updated_at := now }
            (Except.ok file2,
             { db with
                 files := db.files.map (fun f => if f.id == file_record.id then file2 else f),
                 uploads := db.uploads.map (fun u =>
                   if u.id == upload.id then
                     { upload with status := UploadStatus.completed } else u) },
             [req])
          | S3Resp.clientError e =>
            (Except.error (PyErr.fileUploadException s!"Failed to complete multipart upload: {e}"),
             { db with
                 files := db.files.map (fun f =>
                   if f.id == file_record.id then
                     { file_record with status := FileStatus.failed, updated_at := now } else f),
                 uploads := db.uploads.map (fun u =>
                   if u.id == upload.id then
                     { upload with status := UploadStatus.aborted } else u) },
             [req])

/-- `UploadService.abort_multipart_upload`.  The remote abort is attempted
only when a session id is present and its `ClientError` is logged and
swallowed; File→FAILED / Upload→ABORTED is committed regardless.  A file
without an `uploads` row raises AttributeError inside the `try`, which the
generic handler rolls back and converts to `FileUploadException`. -/
def abort_multipart_upload (_s3 : S3Client) (db : DB) (now : Int)
    (file_id user_id : Nat) : Except PyErr Bool × DB × List S3Req :=
  match get_file_by_id db file_id user_id with
  | none => (Except.error (PyErr.fileUploadException "File not found or access denied"), db, [])
  | some file_record =>
    if file_record.status != FileStatus.initiated then
      (Except.error (PyErr.fileUploadException "No upload in progress to abort"), db, [])
    else
      match file_upload db file_record with
      | none =>
        (Except.error (PyErr.fileUploadException
          "Error aborting upload: 'NoneType' object has no attribute 'upload_id'"), db, [])
      | some upload =>
        let trace := if upload.upload_id == "" then [] else
          [S3Req.abort_multipart_upload R2_BUCKET_NAME file_record.storage_key upload.upload_id]
        -- the response to the abort request, if one is made, is ignored
        (Except.ok true,
         { db with
             files := db.files.map (fun f =>
               if f.id == file_record.id then
                 { file_record with status := FileStatus.failed, updated_at := now } else f),
             uploads := db.uploads.map (fun u =>
               if u.id == upload.id then
                 { upload with status := UploadStatus.aborted } else u) },
         trace)

/-! ## Stale-upload reaper (backend/background.py) -/

/-- `STALE_AFTER_HOURS = 12`. -/
def STALE_AFTER_HOURS : Int := 12

/-- The reaper's selection predicate:
`File.updated_at < cutoff, File.status == INITIATED` with
`cutoff = now - timedelta(hours=STALE_AFTER_HOURS)`. -/
def is_stale (now : Int) (f : FileRec) : Bool :=
  f.updated_at < now - STALE_AFTER_HOURS * 3600 && f.status == FileStatus.initiated

/-- `clean_files`: one reaper cycle.  Selects the stale INITIATED files up
front, then aborts each with that file's owner; any exception from a
single abort is caught and logged so the sweep continues. -/
def clean_files (s3 : S3Client) (db : DB) (now : Int) : DB :=
  let stale_files := db.files.filter (is_stale now)
  stale_files.foldl (fun st f => (abort_multipart_upload s3 st now f.id f.user_id).2.1) db

/-- Characterization of a file row after the reaper has processed the
batch `d`: failed when some processed file has its id and an upload row,
untouched otherwise. -/
def sweep_file_upd (db : DB) (now : Int) (d : List FileRec) (x : FileRec) : FileRec :=
  if (d.any (fun s => s.id == x.id)) && (file_upload db x).isSome then
    { x with status := FileStatus.failed, updated_at := now } else x

/-- Characterization of an upload row after the reaper has processed the
batch `d`: aborted when it is the upload of a processed file. -/
def sweep_upload_upd (db : DB) (d : List FileRec) (u : UploadRec) : UploadRec :=
  if d.any (fun s => file_upload db s == some u) then
    { u with status := UploadStatus.aborted } else u

/-- Characterization of the whole store after the reaper has processed
the batch `d`. -/
def sweep_state (db : DB) (now : Int) (d : List FileRec) : DB :=
  { db with files := db.files.map (sweep_file_upd db now d),
            uploads := db.uploads.map (sweep_upload_upd db d) }

/-! ## Upload status endpoint (backend/services/file_service.py) -/

/-- `FileService.get_upload_status`, the service behind
`GET /files/{file_id}/upload-status`.  After the owner-scoped lookup it
builds its result dict from `file_record.upload_id`,
`file_record.total_parts` and `file_record.get_uploaded_part_numbers()`;
the `File` model in `models/file.py` defines none of these attributes
(the multipart columns live on the separate `Upload`/`UploadPart` models),
so the very first of those accesses raises `AttributeError` for every
file the lookup finds.  No state is mutated. -/
def get_upload_status (db : DB) (file_id user_id : Nat) :
    Except PyErr Unit × DB :=
  match get_file_by_id db file_id user_id with
  | none => (Except.error (PyErr.fileUploadException "File not found or access denied"), db)
  | some _ => (Except.error (PyErr.attributeError "upload_id"), db)

/-! ## Concrete stores and gateways used to evaluate the operations -/

/-- A gateway that accepts every request. -/
def s3ok : S3Client := fun _ => S3Resp.ok "sess-new"

/-- A gateway that rejects every request with a `ClientError`. -/
def s3down : S3Client := fun _ => S3Resp.clientError "boom"

/-- A store holding one in-progress upload: file 10 of user 1 is
INITIATED, upload 20 (session `"sess-1"`, fingerprint `"fp"`, 2 parts
total) is INPROGRESS, and part 1 has been acknowledged with etag
`"e1"`. -/
def dbSession : DB :=
  { files := [{ id := 10, user_id := 1, name := "a.txt", size := 100, mime := none,
                folder_id := none, storage_key := "users/1/k_a.txt",
                status := FileStatus.initiated, updated_at := 0 }],
    uploads := [{ id := 20, file_id := 10, upload_id := "sess-1", file_fingerprint := "fp",
                  chunk_size := PART_SIZE, total_parts := 2,
                  status := UploadStatus.inprogress }],
    parts := [{ upload_id := 20, part_number := 1, etag := "e1" }],
    folders := [], nextId := 100 }

/-- An empty store. -/
def dbEmpty : DB :=
  { files := [], uploads := [], parts := [], folders := [], nextId := 0 }

/-- A store whose only row is folder 7, owned by user 2. -/
def dbForeignFolder : DB :=
  { files := [], uploads := [], parts := [],
    folders := [{ id := 7, user_id := 2, path := "/docs" }], nextId := 0 }

/-- A store whose only file is already COMPLETED (upload terminal too). -/
def dbDone : DB :=
  { files := [{ id := 10, user_id := 1, name := "a.txt", size := 100, mime := none,
                folder_id := none, storage_key := "users/1/k_a.txt",
                status := FileStatus.completed, updated_at := 0 }],
    uploads := [{ id := 20, file_id := 10, upload_id := "sess-1", file_fingerprint := "fp",
                  chunk_size := PART_SIZE, total_parts := 2,
                  status := UploadStatus.completed }],
    parts := [], folders := [], nextId := 100 }

/-- A store with one stale INITIATED file (10, idle for more than 12
hours at `now = 50000`) and one fresh INITIATED file (11, updated one
hour before `now`), each with its own in-progress upload. -/
def dbSweep : DB :=
  { files := [{ id := 10, user_id := 1, name := "a.txt", size := 100, mime := none,
                folder_id := none, storage_key := "users/1/k_a.txt",
                status := FileStatus.initiated, updated_at := 0 },
              { id := 11, user_id := 2, name := "b.txt", size := 100, mime := none,
                folder_id := none, storage_key := "users/2/k_b.txt",
                status := FileStatus.initiated, updated_at := 46400 }],
    uploads := [{ id := 20, file_id := 10, upload_id := "sess-1", file_fingerprint := "fp1",
                  chunk_size := PART_SIZE, total_parts := 2,
                  status := UploadStatus.inprogress },
                { id := 21, file_id := 11, upload_id := "sess-2", file_fingerprint := "fp2",
                  chunk_size := PART_SIZE, total_parts := 2,
                  status := UploadStatus.inprogress }],
    parts := [], folders := [], nextId := 100 }

/-! ## Helper lemmas -/

/-- Unpacking a fingerprint-lookup hit: the upload is a stored row with
the requested fingerprint and INPROGRESS status, and the joined file is a
stored row referenced by the upload. -/
theorem get_upload_by_fingerprint_spec {db : DB} {fp : String} {u : UploadRec}
    {f : FileRec} (h : get_upload_by_fingerprint db fp = some (u, f)) :
    u ∈ db.uploads ∧ u.file_fingerprint = fp ∧ u.status = UploadStatus.inprogress ∧
    f ∈ db.files ∧ f.id = u.file_id := by
  unfold get_upload_by_fingerprint at h
  have hmem := List.mem_of_mem_head? h
  have hmem2 := List.mem_filter.mp hmem
  obtain ⟨hmm, hcond⟩ := hmem2
  obtain ⟨a, ha, hfa⟩ := List.mem_filterMap.mp hmm
  rcases hh : (db.files.filter (fun f => f.id == a.file_id)).head? with _ | f0
  · rw [hh] at hfa; exact absurd hfa (by simp)
  · rw [hh] at hfa
    have hau : a = u ∧ f0 = f := by
      have := Option.some.inj hfa
      exact ⟨congrArg Prod.fst this, congrArg Prod.snd this⟩
    obtain ⟨hau, hf0⟩ := hau
    subst hau; subst hf0
    have hfmem := List.mem_of_mem_head? hh
    have hfilt := List.mem_filter.mp hfmem
    simp only [Bool.and_eq_true, beq_iff_eq] at hcond hfilt
    exact ⟨ha, hcond.1, hcond.2, hfilt.1, hfilt.2⟩

/-- If some stored upload has the fingerprint, INPROGRESS status and an
existing file, the fingerprint lookup returns a hit. -/
theorem get_upload_by_fingerprint_total {db : DB} {fp : String}
    (h : ∃ u ∈ db.uploads, u.file_fingerprint = fp ∧
         u.status = UploadStatus.inprogress ∧ ∃ f ∈ db.files, f.id = u.file_id) :
    ∃ u f, get_upload_by_fingerprint db fp = some (u, f) := by
  obtain ⟨u, hu, hfp, hst, f, hf, hid⟩ := h
  have hne : (db.files.filter (fun x => x.id == u.file_id)) ≠ [] := by
    apply List.ne_nil_of_mem (a := f)
    exact List.mem_filter.mpr ⟨hf, by simp [hid]⟩
  have hsome : ((db.files.filter (fun x => x.id == u.file_id)).head?).isSome := by
    cases hc : db.files.filter (fun x => x.id == u.file_id) with
    | nil => exact absurd hc hne
    | cons a t => simp
  obtain ⟨f0, hf0⟩ := Option.isSome_iff_exists.mp hsome
  have hpair : (u, f0) ∈ (db.uploads.filterMap (fun u =>
      match (db.files.filter (fun f => f.id == u.file_id)).head? with
      | some f => some (u, f)
      | none => none)) := by
    apply List.mem_filterMap.mpr
    exact ⟨u, hu, by rw [hf0]⟩
  have hkeep : (u, f0) ∈ ((db.uploads.filterMap (fun u =>
      match (db.files.filter (fun f => f.id == u.file_id)).head? with
      | some f => some (u, f)
      | none => none)).filter (fun uf =>
      uf.1.file_fingerprint == fp && uf.1.status == UploadStatus.inprogress)) := by
    exact List.mem_filter.mpr ⟨hpair, by simp [hfp, hst]⟩
  have hnil := List.ne_nil_of_mem hkeep
  unfold get_upload_by_fingerprint
  cases hc : ((db.uploads.filterMap (fun u =>
      match (db.files.filter (fun f => f.id == u.file_id)).head? with
      | some f => some (u, f)
      | none => none)).filter (fun uf =>
      uf.1.file_fingerprint == fp && uf.1.status == UploadStatus.inprogress)) with
  | nil => exact absurd hc hnil
  | cons a t => exact ⟨a.1, a.2, rfl⟩

/-- Unpacking a file lookup hit: the row is stored, has the requested id
and belongs to the requesting user. -/
theorem get_file_by_id_spec {db : DB} {file_id user_id : Nat} {f : FileRec}
    (h : get_file_by_id db file_id user_id = some f) :
    f ∈ db.files ∧ f.id = file_id ∧ f.user_id = user_id := by
  unfold get_file_by_id at h
  have hmem := List.mem_filter.mp (List.mem_of_mem_head? h)
  simp only [Bool.and_eq_true, beq_iff_eq] at hmem
  exact ⟨hmem.1, hmem.2.1, hmem.2.2⟩

/-- Unpacking a `File.upload` relationship hit: the upload row is stored
and references the file. -/
theorem file_upload_spec {db : DB} {f : FileRec} {u : UploadRec}
    (h : file_upload db f = some u) : u ∈ db.uploads ∧ u.file_id = f.id := by
  unfold file_upload at h
  have hmem := List.mem_filter.mp (List.mem_of_mem_head? h)
  simp only [beq_iff_eq] at hmem
  exact hmem

/-- In a list whose keys are distinct, filtering by a predicate that is
true on `f` and forces the key of `f` keeps exactly `f`. -/
theorem filter_eq_single_of_nodup {α : Type} (key : α → Nat) (p : α → Bool) :
    ∀ (l : List α) (f : α), (l.map key).Nodup → f ∈ l → p f = true →
    (∀ x ∈ l, p x = true → key x = key f) → l.filter p = [f] := by
  intro l
  induction l with
  | nil => intro f _ hf; exact absurd hf (List.not_mem_nil f)
  | cons a t ih =>
    intro f hnd hf hpf hkey
    rw [List.map_cons, List.nodup_cons] at hnd
    rcases List.mem_cons.mp hf with haf | hft
    · subst haf
      rw [List.filter_cons_of_pos hpf]
      have ht : t.filter p = [] := by
        rw [List.filter_eq_nil_iff]
        intro x hx hpx
        exact hnd.1 ((hkey x (List.mem_cons_of_mem _ hx) hpx) ▸ List.mem_map_of_mem key hx)
      rw [ht]
    · have hpa : ¬ p a = true := by
        intro hpa
        have hka := hkey a (List.mem_cons_self a t) hpa
        exact hnd.1 (hka ▸ List.mem_map_of_mem key hft)
      rw [List.filter_cons_of_neg hpa]
      exact ih f hnd.2 hft hpf (fun x hx => hkey x (List.mem_cons_of_mem a hx))

/-- Replacing, in a key-distinct list, the row whose key is the key of
the first `p`-match by a row `g` that still satisfies `p` makes `g` the
first `p`-match. -/
theorem head_filter_replace {α : Type} (key : α → Nat) (p : α → Bool)
    (f g : α) (hpg : p g = true) :
    ∀ (l : List α), (l.map key).Nodup → (l.filter p).head? = some f →
    ((l.map (fun x => if key x == key f then g else x)).filter p).head? = some g := by
  intro l
  induction l with
  | nil => intro _ h; simp at h
  | cons a t ih =>
    intro hnd hhead
    rw [List.map_cons, List.nodup_cons] at hnd
    by_cases hpa : p a = true
    · rw [List.filter_cons_of_pos hpa] at hhead
      have hfa : a = f := by simpa using hhead
      subst hfa
      rw [List.map_cons]
      simp only [beq_self_eq_true, if_true]
      rw [List.filter_cons_of_pos hpg]
      rfl
    · rw [List.filter_cons_of_neg hpa] at hhead
      have hfmem : f ∈ t := List.mem_of_mem_filter (List.mem_of_mem_head? hhead)
      have hka : (key a == key f) = false := by
        apply beq_eq_false_iff_ne.mpr
        intro hk
        exact hnd.1 (hk ▸ List.mem_map_of_mem key hfmem)
      rw [List.map_cons, hka]
      simp only [Bool.false_eq_true, if_false]
      rw [List.filter_cons_of_neg hpa]
      exact ih hnd.2 hhead

/-- `sort_parts` output is ascending in part number. -/
theorem sort_parts_sorted (l : List PartInfo) :
    ((sort_parts l).map PartInfo.part_number).Sorted (· ≤ ·) := by
  rw [List.Sorted, List.pairwise_map]
  exact List.sorted_insertionSort (fun a b => a.part_number ≤ b.part_number) l

/-- `sort_parts` is a permutation of its input. -/
theorem sort_parts_perm (l : List PartInfo) : (sort_parts l).Perm l := by
  unfold sort_parts
  exact List.perm_insertionSort (fun a b => a.part_number ≤ b.part_number) l

/-! ## C1 -/

/-- C1: whenever some Upload with fingerprint `f` is INPROGRESS (with its
file present), `initiate` takes the resume path: it returns that upload's
file id, session id, the chunk size, the total part count and the full
list of acknowledged parts, leaves the store untouched (so a second call
gets the same answer and exactly the same Upload rows exist) and issues no
object-storage request. -/
theorem initiate_resume_idempotent (s3 : S3Client) (db : DB) (now : Int)
    (user_id : Nat) (filename : String) (size : Nat) (fingerprint : String)
    (mime_type : Option String) (folder_id : Option Nat)
    (h : ∃ u ∈ db.uploads, u.file_fingerprint = fingerprint ∧
         u.status = UploadStatus.inprogress ∧ ∃ f ∈ db.files, f.id = u.file_id) :
    ∃ u f, u ∈ db.uploads ∧ u.file_fingerprint = fingerprint ∧
      u.status = UploadStatus.inprogress ∧ f ∈ db.files ∧ f.id = u.file_id ∧
      initiate_multipart_upload s3 db now user_id filename size fingerprint mime_type folder_id =
        (Except.ok { file_id := f.id, upload_id := u.upload_id, part_size := PART_SIZE,
                     total_parts := u.total_parts,
                     uploaded_parts := (upload_parts db u.id).map
                       (fun p => { part_number := p.part_number, etag := p.etag }) },
         db, []) := by
  obtain ⟨u, f, hsome⟩ := get_upload_by_fingerprint_total h
  obtain ⟨hu, hfp, hst, hf, hid⟩ := get_upload_by_fingerprint_spec hsome
  refine ⟨u, f, hu, hfp, hst, hf, hid, ?_⟩
  unfold initiate_multipart_upload
  rw [hsome]
  simp [hst]

/-- Witness for C1 at the concrete store `dbSession`. -/
theorem initiate_resume_idempotent_witness :
    ∃ u f, u ∈ dbSession.uploads ∧ u.file_fingerprint = "fp" ∧
      u.status = UploadStatus.inprogress ∧ f ∈ dbSession.files ∧ f.id = u.file_id ∧
      initiate_multipart_upload s3ok dbSession 0 1 "a.txt" 100 "fp" none none =
        (Except.ok { file_id := f.id, upload_id := u.upload_id, part_size := PART_SIZE,
                     total_parts := u.total_parts,
                     uploaded_parts := (upload_parts dbSession u.id).map
                       (fun p => { part_number := p.part_number, etag := p.etag }) },
         dbSession, []) :=
  initiate_resume_idempotent s3ok dbSession 0 1 "a.txt" 100 "fp" none none (by decide)

/-! ## C10 -/

/-- C10: the fingerprint-resume lookup never filters on the caller.  If
the lookup hits user A's INPROGRESS upload, then `initiate` called by a
different user B returns A's file id, A's session id and the etags of A's
acknowledged parts, writes nothing for B, and returns exactly what the
same call by A would return. -/
theorem initiate_resume_cross_user (s3 : S3Client) (db : DB) (now : Int)
    (userA userB : Nat) (filename : String) (size : Nat) (fingerprint : String)
    (mime_type : Option String) (folder_id : Option Nat)
    (u : UploadRec) (f : FileRec)
    (hsome : get_upload_by_fingerprint db fingerprint = some (u, f))
    (howner : f.user_id = userA) (hne : userA ≠ userB) :
    initiate_multipart_upload s3 db now userB filename size fingerprint mime_type folder_id =
      (Except.ok { file_id := f.id, upload_id := u.upload_id, part_size := PART_SIZE,
                   total_parts := u.total_parts,
                   uploaded_parts := (upload_parts db u.id).map
                     (fun p => { part_number := p.part_number, etag := p.etag }) },
       db, []) ∧
    initiate_multipart_upload s3 db now userB filename size fingerprint mime_type folder_id =
      initiate_multipart_upload s3 db now userA filename size fingerprint mime_type folder_id := by
  obtain ⟨-, -, hst, -, -⟩ := get_upload_by_fingerprint_spec hsome
  constructor
  · unfold initiate_multipart_upload
    rw [hsome]
    simp [hst]
  · unfold initiate_multipart_upload
    rw [hsome]
    simp [hst]

/-- Witness for C10: user 2 initiating with user 1's fingerprint `"fp"`
is handed user 1's session. -/
theorem initiate_resume_cross_user_witness :
    initiate_multipart_upload s3ok dbSession 0 2 "b.pdf" 999 "fp" none none =
      (Except.ok { file_id := 10, upload_id := "sess-1", part_size := PART_SIZE,
                   total_parts := 2,
                   uploaded_parts := [{ part_number := 1, etag := "e1" }] },
       dbSession, []) ∧
    initiate_multipart_upload s3ok dbSession 0 2 "b.pdf" 999 "fp" none none =
      initiate_multipart_upload s3ok dbSession 0 1 "b.pdf" 999 "fp" none none :=
  initiate_resume_cross_user s3ok dbSession 0 1 2 "b.pdf" 999 "fp" none none
    { id := 20, file_id := 10, upload_id := "sess-1", file_fingerprint := "fp",
      chunk_size := PART_SIZE, total_parts := 2, status := UploadStatus.inprogress }
    { id := 10, user_id := 1, name := "a.txt", size := 100, mime := none,
      folder_id := none, storage_key := "users/1/k_a.txt",
      status := FileStatus.initiated, updated_at := 0 }
    (by decide) rfl (by decide)

/-! ## C6 -/

/-- C6: on the non-resume path the object-storage create call precedes
any database write; when it fails with a `ClientError`, `initiate` raises
and the store is exactly what it was — no File, Upload or Part row is
persisted.  The trace shows the single gateway call that was made. -/
theorem initiate_storage_failure_writes_nothing (s3 : S3Client) (db : DB)
    (now : Int) (user_id : Nat) (filename : String) (size : Nat)
    (fingerprint : String) (mime_type : Option String) (folder_id : Option Nat)
    (e : String)
    (hres : get_upload_by_fingerprint db fingerprint = none)
    (hfail : s3 (S3Req.create_multipart_upload R2_BUCKET_NAME
        (generate_storage_key db user_id filename folder_id (toString db.nextId))
        mime_type) = S3Resp.clientError e) :
    initiate_multipart_upload s3 db now user_id filename size fingerprint mime_type folder_id =
      (Except.error (PyErr.fileUploadException s!"Failed to initiate multipart upload: {e}"),
       db,
       [S3Req.create_multipart_upload R2_BUCKET_NAME
          (generate_storage_key db user_id filename folder_id (toString db.nextId))
          mime_type]) := by
  unfold initiate_multipart_upload
  rw [hres]
  unfold initiate_new_upload
  simp only [hfail]

/-- Witness for C6: a rejected create call against the empty store leaves
it empty. -/
theorem initiate_storage_failure_writes_nothing_witness :
    initiate_multipart_upload s3down dbEmpty 0 1 "a.txt" 100 "fp" none none =
      (Except.error (PyErr.fileUploadException "Failed to initiate multipart upload: boom"),
       dbEmpty,
       [S3Req.create_multipart_upload R2_BUCKET_NAME "users/1/0_a.txt" none]) :=
  initiate_storage_failure_writes_nothing s3down dbEmpty 0 1 "a.txt" 100 "fp"
    none none "boom" (by decide) (by decide)

/-! ## C7 -/

/-- C7: once a file is terminal (COMPLETED or FAILED), presign,
acknowledge, complete and abort all fail before touching anything: the
store is returned unchanged and no object-storage request is issued. -/
theorem terminal_state_gating (s3 : S3Client) (db : DB) (now : Int)
    (file_id user_id : Nat) (part_number : Int) (etag : String)
    (parts : List PartInfo) (file_record : FileRec)
    (hf : get_file_by_id db file_id user_id = some file_record)
    (hterm : file_record.status = FileStatus.completed ∨
             file_record.status = FileStatus.failed) :
    generate_presigned_url_for_part s3 db file_id user_id part_number =
      (Except.error (PyErr.fileUploadException "Upload is not in progress"), db, []) ∧
    mark_part_uploaded db file_id user_id part_number etag =
      (Except.error (PyErr.fileUploadException "Upload is not in progress"), db) ∧
    complete_multipart_upload s3 db now file_id user_id parts =
      (Except.error (PyErr.fileUploadException "Upload is not in progress"), db, []) ∧
    abort_multipart_upload s3 db now file_id user_id =
      (Except.error (PyErr.fileUploadException "No upload in progress to abort"), db, []) := by
  have hne : (file_record.status != FileStatus.initiated) = true := by
    rcases hterm with h | h <;> rw [h] <;> rfl
  refine ⟨?_, ?_, ?_, ?_⟩
  · unfold generate_presigned_url_for_part
    rw [hf]
    simp [hne]
  · unfold mark_part_uploaded
    rw [hf]
    simp [hne]
  · unfold complete_multipart_upload
    rw [hf]
    simp [hne]
  · unfold abort_multipart_upload
    rw [hf]
    simp [hne]

/-- Witness for C7 on the COMPLETED file of `dbDone`. -/
theorem terminal_state_gating_witness :
    generate_presigned_url_for_part s3ok dbDone 10 1 1 =
      (Except.error (PyErr.fileUploadException "Upload is not in progress"), dbDone, []) ∧
    mark_part_uploaded dbDone 10 1 1 "e9" =
      (Except.error (PyErr.fileUploadException "Upload is not in progress"), dbDone) ∧
    complete_multipart_upload s3ok dbDone 0 10 1 [{ part_number := 1, etag := "e9" }] =
      (Except.error (PyErr.fileUploadException "Upload is not in progress"), dbDone, []) ∧
    abort_multipart_upload s3ok dbDone 0 10 1 =
      (Except.error (PyErr.fileUploadException "No upload in progress to abort"), dbDone, []) :=
  terminal_state_gating s3ok dbDone 0 10 1 1 "e9" [{ part_number := 1, etag := "e9" }]
    { id := 10, user_id := 1, name := "a.txt", size := 100, mime := none,
      folder_id := none, storage_key := "users/1/k_a.txt",
      status := FileStatus.completed, updated_at := 0 }
    (by decide) (Or.inl rfl)

/-! ## C2 -/

/-- Counterexample to C2 as stated: part 1 of `dbSession` is already
acknowledged, and re-acknowledging it returns Python `None` — not the
count of acknowledged parts together with the total that the claim
promises for every call.  (The store, and with it the original etag, is
unchanged.) -/
theorem ack_duplicate_returns_none :
    mark_part_uploaded dbSession 10 1 1 "second" = (Except.ok none, dbSession) := by
  decide

/-- C2 as amended: acknowledging a fresh part number inserts exactly one
Part row carrying that call's etag and returns the distinct-part count
with the total; re-acknowledging the same part number afterwards (any
etag) leaves the store byte-identical — one row, the first etag — but
returns `None` instead of the count. -/
theorem ack_idempotent_amended (db : DB) (file_id user_id : Nat)
    (part_number : Int) (etag etag2 : String)
    (file_record : FileRec) (upload : UploadRec)
    (hf : get_file_by_id db file_id user_id = some file_record)
    (hst : file_record.status = FileStatus.initiated)
    (hu : file_upload db file_record = some upload)
    (hust : upload.status = UploadStatus.inprogress)
    (hnew : db.parts.any
      (fun p => p.upload_id == upload.id && p.part_number == part_number) = false) :
    mark_part_uploaded db file_id user_id part_number etag =
      (Except.ok (some
         { uploaded_parts :=
             (db.parts.filter (fun p => p.upload_id == upload.id)).length + 1,
           total_parts := upload.total_parts }),
       { db with parts := db.parts ++
           [{ upload_id := upload.id, part_number := part_number, etag := etag }] }) ∧
    { db with parts := db.parts ++
        [{ upload_id := upload.id, part_number := part_number, etag := etag }] : DB }.parts.filter
      (fun p => p.upload_id == upload.id && p.part_number == part_number) =
      [{ upload_id := upload.id, part_number := part_number, etag := etag }] ∧
    mark_part_uploaded
        { db with parts := db.parts ++
            [{ upload_id := upload.id, part_number := part_number, etag := etag }] }
        file_id user_id part_number etag2 =
      (Except.ok none,
       { db with parts := db.parts ++
           [{ upload_id := upload.id, part_number := part_number, etag := etag }] }) := by
  have hst' : (file_record.status != FileStatus.initiated) = false := by
    rw [hst]; rfl
  have hust' : (upload.status != UploadStatus.inprogress) = false := by
    rw [hust]; rfl
  have hfilter0 : db.parts.filter
      (fun p => p.upload_id == upload.id && p.part_number == part_number) = [] := by
    rw [List.filter_eq_nil_iff]
    exact fun x hx => (List.any_eq_false.mp hnew) x hx
  refine ⟨?_, ?_, ?_⟩
  · unfold mark_part_uploaded
    rw [hf]
    simp only [hst', Bool.false_eq_true, if_false, hu, hust', hnew]
    simp [List.filter_append, Nat.add_comm]
  · rw [List.filter_append, hfilter0]
    simp
  · have hf2 : get_file_by_id
        { db with parts := db.parts ++
            [{ upload_id := upload.id, part_number := part_number, etag := etag }] }
        file_id user_id = some file_record := hf
    have hu2 : file_upload
        { db with parts := db.parts ++
            [{ upload_id := upload.id, part_number := part_number, etag := etag }] }
        file_record = some upload := hu
    unfold mark_part_uploaded
    rw [hf2]
    simp only [hst', Bool.false_eq_true, if_false, hu2, hust']
    have hany : { db with parts := db.parts ++
        [{ upload_id := upload.id, part_number := part_number, etag := etag }] : DB }.parts.any
        (fun p => p.upload_id == upload.id && p.part_number == part_number) = true := by
      simp [List.any_append]
    simp [hany]

/-- Witness for the amended C2: acknowledging part 2 of `dbSession` once
then again. -/
theorem ack_idempotent_amended_witness :
    mark_part_uploaded dbSession 10 1 2 "e2" =
      (Except.ok (some
         { uploaded_parts :=
             (dbSession.parts.filter (fun p => p.upload_id == 20)).length + 1,
           total_parts := 2 }),
       { dbSession with parts := dbSession.parts ++
           [{ upload_id := 20, part_number := 2, etag := "e2" }] }) ∧
    { dbSession with parts := dbSession.parts ++
        [{ upload_id := 20, part_number := 2, etag := "e2" }] : DB }.parts.filter
      (fun p => p.upload_id == 20 && p.part_number == 2) =
      [{ upload_id := 20, part_number := 2, etag := "e2" }] ∧
    mark_part_uploaded
        { dbSession with parts := dbSession.parts ++
            [{ upload_id := 20, part_number := 2, etag := "e2" }] } 10 1 2 "late" =
      (Except.ok none,
       { dbSession with parts := dbSession.parts ++
           [{ upload_id := 20, part_number := 2, etag := "e2" }] }) :=
  ack_idempotent_amended dbSession 10 1 2 "e2" "late"
    { id := 10, user_id := 1, name := "a.txt", size := 100, mime := none,
      folder_id := none, storage_key := "users/1/k_a.txt",
      status := FileStatus.initiated, updated_at := 0 }
    { id := 20, file_id := 10, upload_id := "sess-1", file_fingerprint := "fp",
      chunk_size := PART_SIZE, total_parts := 2, status := UploadStatus.inprogress }
    (by decide) rfl (by decide) rfl (by decide)

/-! ## C4 -/

/-- Counterexample to C4 as stated: `dbSession`'s upload has
`total_parts = 2`, yet acknowledging part 99 does not fail with an
`InvalidArgument` error — it writes a Part row for part 99 and reports
success.  `acknowledgePart` has no bounds check. -/
theorem ack_out_of_bounds_inserts_row :
    mark_part_uploaded dbSession 10 1 99 "x" =
      (Except.ok (some { uploaded_parts := 2, total_parts := 2 }),
       { dbSession with parts := dbSession.parts ++
           [{ upload_id := 20, part_number := 99, etag := "x" }] }) := by
  decide

/-- C4 as amended: `presignPart` alone rejects out-of-range part numbers
(error, no store change, no object-storage call); `totalParts` on the
non-resume path is `ceil(size / PART_SIZE)` with the 5 MiB chunk, so a
declared size of 104857600 gives 20 parts; `acknowledgePart` performs no
bounds check and records whatever part number it is given. -/
theorem part_bounds_amended :
    (∀ (s3 : S3Client) (db : DB) (file_id user_id : Nat) (part_number : Int)
       (file_record : FileRec) (upload : UploadRec),
       get_file_by_id db file_id user_id = some file_record →
       file_record.status = FileStatus.initiated →
       file_upload db file_record = some upload →
       upload.upload_id ≠ "" →
       (part_number < 1 ∨ part_number > (upload.total_parts : Int)) →
       generate_presigned_url_for_part s3 db file_id user_id part_number =
         (Except.error (PyErr.fileUploadException
            s!"Invalid part number. Must be between 1 and {upload.total_parts}"),
          db, [])) ∧
    (∀ (s3 : S3Client) (db : DB) (now : Int) (user_id : Nat) (filename : String)
       (size : Nat) (fingerprint : String) (mime_type : Option String)
       (folder_id : Option Nat) (sid : String),
       get_upload_by_fingerprint db fingerprint = none →
       (∀ fid, folder_id = some fid → db.folders.any (fun fo => fo.id == fid) = true) →
       s3 (S3Req.create_multipart_upload R2_BUCKET_NAME
             (generate_storage_key db user_id filename folder_id (toString db.nextId))
             mime_type) = S3Resp.ok sid →
       (initiate_multipart_upload s3 db now user_id filename size fingerprint
          mime_type folder_id).1 =
         Except.ok { file_id := db.nextId + 1, upload_id := sid,
                     part_size := PART_SIZE,
                     total_parts := (size + PART_SIZE - 1) / PART_SIZE,
                     uploaded_parts := [] }) ∧
    ((104857600 + PART_SIZE - 1) / PART_SIZE = 20) ∧
    (∀ (db : DB) (file_id user_id : Nat) (part_number : Int) (etag : String)
       (file_record : FileRec) (upload : UploadRec),
       get_file_by_id db file_id user_id = some file_record →
       file_record.status = FileStatus.initiated →
       file_upload db file_record = some upload →
       upload.status = UploadStatus.inprogress →
       db.parts.any
         (fun p => p.upload_id == upload.id && p.part_number == part_number) = false →
       mark_part_uploaded db file_id user_id part_number etag =
         (Except.ok (some
            { uploaded_parts :=
                (db.parts.filter (fun p => p.upload_id == upload.id)).length + 1,
              total_parts := upload.total_parts }),
          { db with parts := db.parts ++
              [{ upload_id := upload.id, part_number := part_number, etag := etag }] })) := by
  refine ⟨?_, ?_, ?_, ?_⟩
  · intro s3 db file_id user_id part_number file_record upload hf hst hu hid hb
    have hst' : (file_record.status != FileStatus.initiated) = false := by rw [hst]; rfl
    have hid' : (upload.upload_id == "") = false := beq_eq_false_iff_ne.mpr hid
    have hb' : (decide (part_number < 1) || decide (part_number > (upload.total_parts : Int))) = true := by
      rcases hb with h | h <;> simp [h]
    unfold generate_presigned_url_for_part
    rw [hf]
    simp only [hst', Bool.false_eq_true, if_false, hu, hid', hb', if_true]
  · intro s3 db now user_id filename size fingerprint mime_type folder_id sid hres hfk hok
    unfold initiate_multipart_upload
    rw [hres]
    unfold initiate_new_upload
    simp only [hok]
    cases folder_id with
    | none => rfl
    | some fid => simp only [hfk fid rfl, if_true]
  · decide
  · intro db file_id user_id part_number etag file_record upload hf hst hu hust hnew
    have hst' : (file_record.status != FileStatus.initiated) = false := by rw [hst]; rfl
    have hust' : (upload.status != UploadStatus.inprogress) = false := by rw [hust]; rfl
    unfold mark_part_uploaded
    rw [hf]
    simp only [hst', Bool.false_eq_true, if_false, hu, hust', hnew]
    simp [List.filter_append, Nat.add_comm]

/-- Witness for the amended C4: part 0 is rejected by presign on
`dbSession`; initiating a 104857600-byte upload on the empty store yields
20 parts; and acknowledging the out-of-range part 3 on `dbSession`
succeeds and writes the row. -/
theorem part_bounds_amended_witness :
    generate_presigned_url_for_part s3ok dbSession 10 1 0 =
      (Except.error (PyErr.fileUploadException
         "Invalid part number. Must be between 1 and 2"), dbSession, []) ∧
    (initiate_multipart_upload s3ok dbEmpty 0 1 "big.bin" 104857600 "fp9" none none).1 =
      Except.ok { file_id := 1, upload_id := "sess-new", part_size := PART_SIZE,
                  total_parts := 20, uploaded_parts := [] } ∧
    mark_part_uploaded dbSession 10 1 3 "e3" =
      (Except.ok (some { uploaded_parts := 2, total_parts := 2 }),
       { dbSession with parts := dbSession.parts ++
           [{ upload_id := 20, part_number := 3, etag := "e3" }] }) :=
  ⟨part_bounds_amended.1 s3ok dbSession 10 1 0
     { id := 10, user_id := 1, name := "a.txt", size := 100, mime := none,
       folder_id := none, storage_key := "users/1/k_a.txt",
       status := FileStatus.initiated, updated_at := 0 }
     { id := 20, file_id := 10, upload_id := "sess-1", file_fingerprint := "fp",
       chunk_size := PART_SIZE, total_parts := 2, status := UploadStatus.inprogress }
     (by decide) rfl (by decide) (by decide) (Or.inl (by decide)),
   part_bounds_amended.2.1 s3ok dbEmpty 0 1 "big.bin" 104857600 "fp9" none none
     "sess-new" (by decide) (fun fid h => nomatch h) (by decide),
   part_bounds_amended.2.2.2 dbSession 10 1 3 "e3"
     { id := 10, user_id := 1, name := "a.txt", size := 100, mime := none,
       folder_id := none, storage_key := "users/1/k_a.txt",
       status := FileStatus.initiated, updated_at := 0 }
     { id := 20, file_id := 10, upload_id := "sess-1", file_fingerprint := "fp",
       chunk_size := PART_SIZE, total_parts := 2, status := UploadStatus.inprogress }
     (by decide) rfl (by decide) rfl (by decide)⟩

/-! ## C5 -/

/-- Counterexample to C5 as stated: folder 7 exists but belongs to
user 2, yet `initiate` called by user 1 with `folder_id = 7` does not
fail with `NotFound` — it opens an object-storage session, writes a File
row (storing the foreign folder id, under an owner-root storage key) and
an Upload row, and returns success.  (The foreign-key constraint is
satisfied because the folders row exists; only the owner-scoped
storage-key lookup misses.) -/
theorem initiate_unowned_folder_succeeds :
    initiate_multipart_upload s3ok dbForeignFolder 0 1 "a.txt" 100 "fp" none (some 7) =
      (Except.ok { file_id := 1, upload_id := "sess-new", part_size := PART_SIZE,
                   total_parts := 1, uploaded_parts := [] },
       { dbForeignFolder with
           files := [{ id := 1, user_id := 1, name := "a.txt", size := 100, mime := none,
                       folder_id := some 7, storage_key := "users/1/0_a.txt",
                       status := FileStatus.initiated, updated_at := 0 }],
           uploads := [{ id := 2, file_id := 1, upload_id := "sess-new",
                         file_fingerprint := "fp", chunk_size := PART_SIZE, total_parts := 1,
                         status := UploadStatus.inprogress }],
           nextId := 3 },
       [S3Req.create_multipart_upload R2_BUCKET_NAME "users/1/0_a.txt" none]) := by
  decide

/-- C5 as amended: on the non-resume path no folder validation is done
and no `NotFound` is ever raised.  If the folder exists but is not owned
by the caller, the storage key silently falls back to the owner-root key
(the exact key the call without a folder would use) and File (still
carrying the given foreign `folder_id`) and Upload rows are committed as
usual.  If the folder does not exist at all, the object-storage session
is still opened first, and then the commit violates
`files.folder_id -> folders.id`: the `IntegrityError` is rolled back and
re-raised as a `FileUploadException` — no rows persist, but the remote
session was created before the failure, contrary to the claim's
"before opening any object-storage session". -/
theorem initiate_foreign_folder_amended :
    (∀ (s3 : S3Client) (db : DB) (now : Int) (user_id : Nat) (filename : String)
       (size : Nat) (fingerprint : String) (mime_type : Option String)
       (fid : Nat) (sid : String),
       get_upload_by_fingerprint db fingerprint = none →
       get_folder_by_id db fid user_id = none →
       db.folders.any (fun fo => fo.id == fid) = true →
       s3 (S3Req.create_multipart_upload R2_BUCKET_NAME
             (generate_storage_key db user_id filename (some fid) (toString db.nextId))
             mime_type) = S3Resp.ok sid →
       generate_storage_key db user_id filename (some fid) (toString db.nextId) =
         generate_storage_key db user_id filename none (toString db.nextId) ∧
       initiate_multipart_upload s3 db now user_id filename size fingerprint mime_type
           (some fid) =
         (Except.ok { file_id := db.nextId + 1, upload_id := sid, part_size := PART_SIZE,
                      total_parts := (size + PART_SIZE - 1) / PART_SIZE,
                      uploaded_parts := [] },
          { db with
              files := db.files ++
                [{ id := db.nextId + 1, user_id := user_id, name := filename,
                   size := size, mime := mime_type, folder_id := some fid,
                   storage_key := generate_storage_key db user_id filename (some fid)
                     (toString db.nextId),
                   status := FileStatus.initiated, updated_at := now }],
              uploads := db.uploads ++
                [{ id := db.nextId + 2, file_id := db.nextId + 1, upload_id := sid,
                   file_fingerprint := fingerprint, chunk_size := PART_SIZE,
                   total_parts := (size + PART_SIZE - 1) / PART_SIZE,
                   status := UploadStatus.inprogress }],
              nextId := db.nextId + 3 },
          [S3Req.create_multipart_upload R2_BUCKET_NAME
             (generate_storage_key db user_id filename (some fid) (toString db.nextId))
             mime_type])) ∧
    (∀ (s3 : S3Client) (db : DB) (now : Int) (user_id : Nat) (filename : String)
       (size : Nat) (fingerprint : String) (mime_type : Option String)
       (fid : Nat) (sid : String),
       get_upload_by_fingerprint db fingerprint = none →
       db.folders.any (fun fo => fo.id == fid) = false →
       s3 (S3Req.create_multipart_upload R2_BUCKET_NAME
             (generate_storage_key db user_id filename (some fid) (toString db.nextId))
             mime_type) = S3Resp.ok sid →
       initiate_multipart_upload s3 db now user_id filename size fingerprint mime_type
           (some fid) =
         (Except.error (PyErr.fileUploadException
            "Error initiating multipart upload: IntegrityError"),
          db,
          [S3Req.create_multipart_upload R2_BUCKET_NAME
             (generate_storage_key db user_id filename (some fid) (toString db.nextId))
             mime_type])) := by
  constructor
  · intro s3 db now user_id filename size fingerprint mime_type fid sid hres hfol hex hok
    constructor
    · simp only [generate_storage_key, hfol]
    · unfold initiate_multipart_upload
      rw [hres]
      unfold initiate_new_upload
      simp only [hok]
      rw [hex]
      rfl
  · intro s3 db now user_id filename size fingerprint mime_type fid sid hres hnone hok
    unfold initiate_multipart_upload
    rw [hres]
    unfold initiate_new_upload
    simp only [hok]
    rw [hnone]
    rfl

/-- Witness for the amended C5: user 1 initiating into user 2's folder 7
on `dbForeignFolder` succeeds and commits; the same call on the empty
store (folder 7 nonexistent) opens the session and then fails on the
foreign key, leaving the store empty. -/
theorem initiate_foreign_folder_amended_witness :
    (generate_storage_key dbForeignFolder 1 "a.txt" (some 7) "0" =
       generate_storage_key dbForeignFolder 1 "a.txt" none "0" ∧
     initiate_multipart_upload s3ok dbForeignFolder 0 1 "a.txt" 100 "fp" none (some 7) =
       (Except.ok { file_id := 1, upload_id := "sess-new", part_size := PART_SIZE,
                    total_parts := 1, uploaded_parts := [] },
        { dbForeignFolder with
            files := dbForeignFolder.files ++
              [{ id := 1, user_id := 1, name := "a.txt", size := 100, mime := none,
                 folder_id := some 7,
                 storage_key := generate_storage_key dbForeignFolder 1 "a.txt" (some 7) "0",
                 status := FileStatus.initiated, updated_at := 0 }],
            uploads := dbForeignFolder.uploads ++
              [{ id := 2, file_id := 1, upload_id := "sess-new", file_fingerprint := "fp",
                 chunk_size := PART_SIZE, total_parts := 1,
                 status := UploadStatus.inprogress }],
            nextId := 3 },
        [S3Req.create_multipart_upload R2_BUCKET_NAME
           (generate_storage_key dbForeignFolder 1 "a.txt" (some 7) "0") none])) ∧
    initiate_multipart_upload s3ok dbEmpty 0 1 "a.txt" 100 "fp" none (some 7) =
      (Except.error (PyErr.fileUploadException
         "Error initiating multipart upload: IntegrityError"),
       dbEmpty,
       [S3Req.create_multipart_upload R2_BUCKET_NAME
          (generate_storage_key dbEmpty 1 "a.txt" (some 7) "0") none]) :=
  ⟨initiate_foreign_folder_amended.1 s3ok dbForeignFolder 0 1 "a.txt" 100 "fp" none 7
     "sess-new" (by decide) (by decide) (by decide) (by decide),
   initiate_foreign_folder_amended.2 s3ok dbEmpty 0 1 "a.txt" 100 "fp" none 7
     "sess-new" (by decide) (by decide) (by decide)⟩

/-! ## C3 -/

/-- C3: `complete` hands the gateway the caller's parts sorted ascending
by part number (a permutation of what was supplied); on gateway success
the committed store shows the File COMPLETED and its Upload COMPLETED,
and the updated file is returned; on gateway failure the committed store
shows the File FAILED and its Upload ABORTED and the error is re-raised.
Part rows are untouched either way. -/
theorem complete_sorts_and_transitions (s3 : S3Client) (db : DB) (now : Int)
    (file_id user_id : Nat) (parts : List PartInfo)
    (file_record : FileRec) (upload : UploadRec)
    (hnd : (db.files.map FileRec.id).Nodup)
    (hnu : (db.uploads.map UploadRec.id).Nodup)
    (hf : get_file_by_id db file_id user_id = some file_record)
    (hst : file_record.status = FileStatus.initiated)
    (hu : file_upload db file_record = some upload)
    (hid : upload.upload_id ≠ "") :
    (((sort_parts parts).map PartInfo.part_number).Sorted (· ≤ ·) ∧
      (sort_parts parts).Perm parts) ∧
    (∀ payload,
       s3 (S3Req.complete_multipart_upload R2_BUCKET_NAME file_record.storage_key
             upload.upload_id ((sort_parts parts).map
               (fun p => { ETag := p.etag, PartNumber := p.part_number }))) =
         S3Resp.ok payload →
       ∃ db2, complete_multipart_upload s3 db now file_id user_id parts =
           (Except.ok { file_record with status := FileStatus.completed, updated_at := now },
            db2,
            [S3Req.complete_multipart_upload R2_BUCKET_NAME file_record.storage_key
               upload.upload_id ((sort_parts parts).map
                 (fun p => { ETag := p.etag, PartNumber := p.part_number }))]) ∧
         get_file_by_id db2 file_id user_id =
           some { file_record with status := FileStatus.completed, updated_at := now } ∧
         file_upload db2 { file_record with status := FileStatus.completed, updated_at := now } =
           some { upload with status := UploadStatus.completed } ∧
         db2.parts = db.parts) ∧
    (∀ e,
       s3 (S3Req.complete_multipart_upload R2_BUCKET_NAME file_record.storage_key
             upload.upload_id ((sort_parts parts).map
               (fun p => { ETag := p.etag, PartNumber := p.part_number }))) =
         S3Resp.clientError e →
       ∃ db2, complete_multipart_upload s3 db now file_id user_id parts =
           (Except.error (PyErr.fileUploadException
              s!"Failed to complete multipart upload: {e}"),
            db2,
            [S3Req.complete_multipart_upload R2_BUCKET_NAME file_record.storage_key
               upload.upload_id ((sort_parts parts).map
                 (fun p => { ETag := p.etag, PartNumber := p.part_number }))]) ∧
         get_file_by_id db2 file_id user_id =
           some { file_record with status := FileStatus.failed, updated_at := now } ∧
         file_upload db2 { file_record with status := FileStatus.failed, updated_at := now } =
           some { upload with status := UploadStatus.aborted } ∧
         db2.parts = db.parts) := by
  have hst' : (file_record.status != FileStatus.initiated) = false := by rw [hst]; rfl
  have hid' : (upload.upload_id == "") = false := beq_eq_false_iff_ne.mpr hid
  have hpf : (file_record.id == file_id && file_record.user_id == user_id) = true := by
    have := (List.mem_filter.mp (List.mem_of_mem_head? hf)).2
    simpa using this
  have hpu : (upload.file_id == file_record.id) = true := by
    have := (List.mem_filter.mp (List.mem_of_mem_head? hu)).2
    simpa using this
  refine ⟨⟨sort_parts_sorted parts, sort_parts_perm parts⟩, ?_, ?_⟩
  · intro payload hok
    refine ⟨{ db with
        files := db.files.map (fun f => if f.id == file_record.id then
          { file_record with status := FileStatus.completed, updated_at := now } else f),
        uploads := db.uploads.map (fun u => if u.id == upload.id then
          { upload with status := UploadStatus.completed } else u) }, ?_, ?_, ?_, rfl⟩
    · unfold complete_multipart_upload
      rw [hf]
      simp only [hst', Bool.false_eq_true, if_false, hu, hid', hok]
    · unfold get_file_by_id
      exact head_filter_replace FileRec.id
        (fun x => x.id == file_id && x.user_id == user_id)
        file_record { file_record with status := FileStatus.completed, updated_at := now }
        (by simpa using hpf) db.files hnd hf
    · unfold file_upload
      exact head_filter_replace UploadRec.id
        (fun u => u.file_id == file_record.id)
        upload { upload with status := UploadStatus.completed }
        (by simpa using hpu) db.uploads hnu hu
  · intro e herr
    refine ⟨{ db with
        files := db.files.map (fun f => if f.id == file_record.id then
          { file_record with status := FileStatus.failed, updated_at := now } else f),
        uploads := db.uploads.map (fun u => if u.id == upload.id then
          { upload with status := UploadStatus.aborted } else u) }, ?_, ?_, ?_, rfl⟩
    · unfold complete_multipart_upload
      rw [hf]
      simp only [hst', Bool.false_eq_true, if_false, hu, hid', herr]
    · unfold get_file_by_id
      exact head_filter_replace FileRec.id
        (fun x => x.id == file_id && x.user_id == user_id)
        file_record { file_record with status := FileStatus.failed, updated_at := now }
        (by simpa using hpf) db.files hnd hf
    · unfold file_upload
      exact head_filter_replace UploadRec.id
        (fun u => u.file_id == file_record.id)
        upload { upload with status := UploadStatus.aborted }
        (by simpa using hpu) db.uploads hnu hu

/-- Witness for C3: completing `dbSession`'s upload with the unsorted
parts `[{1,a},{3,c},{2,b}]` sends the gateway `[1,2,3]`; with an
accepting gateway the file/upload pair commits to COMPLETED/COMPLETED,
with a rejecting gateway to FAILED/ABORTED. -/
theorem complete_sorts_and_transitions_witness :
    (∃ db2, complete_multipart_upload s3ok dbSession 5 10 1
        [{ part_number := 1, etag := "a" }, { part_number := 3, etag := "c" },
         { part_number := 2, etag := "b" }] =
        (Except.ok { id := 10, user_id := 1, name := "a.txt", size := 100, mime := none,
                     folder_id := none, storage_key := "users/1/k_a.txt",
                     status := FileStatus.completed, updated_at := 5 },
         db2,
         [S3Req.complete_multipart_upload R2_BUCKET_NAME "users/1/k_a.txt" "sess-1"
            [{ ETag := "a", PartNumber := 1 }, { ETag := "b", PartNumber := 2 },
             { ETag := "c", PartNumber := 3 }]]) ∧
      get_file_by_id db2 10 1 =
        some { id := 10, user_id := 1, name := "a.txt", size := 100, mime := none,
               folder_id := none, storage_key := "users/1/k_a.txt",
               status := FileStatus.completed, updated_at := 5 } ∧
      file_upload db2
          { id := 10, user_id := 1, name := "a.txt", size := 100, mime := none,
            folder_id := none, storage_key := "users/1/k_a.txt",
            status := FileStatus.completed, updated_at := 5 } =
        some { id := 20, file_id := 10, upload_id := "sess-1", file_fingerprint := "fp",
               chunk_size := PART_SIZE, total_parts := 2,
               status := UploadStatus.completed } ∧
      db2.parts = dbSession.parts) ∧
    (∃ db2, complete_multipart_upload s3down dbSession 5 10 1
        [{ part_number := 1, etag := "a" }, { part_number := 3, etag := "c" },
         { part_number := 2, etag := "b" }] =
        (Except.error (PyErr.fileUploadException "Failed to complete multipart upload: boom"),
         db2,
         [S3Req.complete_multipart_upload R2_BUCKET_NAME "users/1/k_a.txt" "sess-1"
            [{ ETag := "a", PartNumber := 1 }, { ETag := "b", PartNumber := 2 },
             { ETag := "c", PartNumber := 3 }]]) ∧
      get_file_by_id db2 10 1 =
        some { id := 10, user_id := 1, name := "a.txt", size := 100, mime := none,
               folder_id := none, storage_key := "users/1/k_a.txt",
               status := FileStatus.failed, updated_at := 5 } ∧
      file_upload db2
          { id := 10, user_id := 1, name := "a.txt", size := 100, mime := none,
            folder_id := none, storage_key := "users/1/k_a.txt",
            status := FileStatus.failed, updated_at := 5 } =
        some { id := 20, file_id := 10, upload_id := "sess-1", file_fingerprint := "fp",
               chunk_size := PART_SIZE, total_parts := 2,
               status := UploadStatus.aborted } ∧
      db2.parts = dbSession.parts) :=
  ⟨(complete_sorts_and_transitions s3ok dbSession 5 10 1
      [{ part_number := 1, etag := "a" }, { part_number := 3, etag := "c" },
       { part_number := 2, etag := "b" }]
      { id := 10, user_id := 1, name := "a.txt", size := 100, mime := none,
        folder_id := none, storage_key := "users/1/k_a.txt",
        status := FileStatus.initiated, updated_at := 0 }
      { id := 20, file_id := 10, upload_id := "sess-1", file_fingerprint := "fp",
        chunk_size := PART_SIZE, total_parts := 2, status := UploadStatus.inprogress }
      (by decide) (by decide) (by decide) rfl (by decide) (by decide)).2.1 "sess-new" rfl,
   (complete_sorts_and_transitions s3down dbSession 5 10 1
      [{ part_number := 1, etag := "a" }, { part_number := 3, etag := "c" },
       { part_number := 2, etag := "b" }]
      { id := 10, user_id := 1, name := "a.txt", size := 100, mime := none,
        folder_id := none, storage_key := "users/1/k_a.txt",
        status := FileStatus.initiated, updated_at := 0 }
      { id := 20, file_id := 10, upload_id := "sess-1", file_fingerprint := "fp",
        chunk_size := PART_SIZE, total_parts := 2, status := UploadStatus.inprogress }
      (by decide) (by decide) (by decide) rfl (by decide) (by decide)).2.2 "boom" rfl⟩

/-! ## C9 -/

/-- C9 evaluated at a concrete failing input: file 10 exists and belongs
to caller 1, yet `get_upload_status` does not return the read-only
projection the spec describes — it raises `AttributeError`, because the
result dict reads `file_record.upload_id`, which the `File` model does
not define.  (The store is at least left unchanged.) -/
theorem upload_status_raises_attribute_error :
    get_upload_status dbSession 10 1 =
      (Except.error (PyErr.attributeError "upload_id"), dbSession) := by
  decide

/-! ## C8 -/

/-- Mapping a function that does not change the filter verdict commutes
with the filter. -/
theorem filter_map_comm {α : Type} (p : α → Bool) (g : α → α)
    (hpg : ∀ x, p (g x) = p x) :
    ∀ (l : List α), (l.map g).filter p = (l.filter p).map g := by
  intro l
  induction l with
  | nil => rfl
  | cons a t ih =>
    rw [List.map_cons]
    by_cases hpa : p a = true
    · rw [List.filter_cons_of_pos (by rw [hpg]; exact hpa),
        List.filter_cons_of_pos hpa, List.map_cons, ih]
    · rw [List.filter_cons_of_neg (by rw [hpg]; exact hpa),
        List.filter_cons_of_neg hpa, ih]

/-- The sweep updates do not change row ids, owners or file references. -/
theorem sweep_upd_proj (db : DB) (now : Int) (d : List FileRec) :
    (∀ x, (sweep_file_upd db now d x).id = x.id) ∧
    (∀ x, (sweep_file_upd db now d x).user_id = x.user_id) ∧
    (∀ u, (sweep_upload_upd db d u).file_id = u.file_id) := by
  refine ⟨?_, ?_, ?_⟩
  · intro x
    unfold sweep_file_upd
    rw [apply_ite FileRec.id]
    simp
  · intro x
    unfold sweep_file_upd
    rw [apply_ite FileRec.user_id]
    simp
  · intro u
    unfold sweep_upload_upd
    rw [apply_ite UploadRec.file_id]
    simp

/-- One abort step of the reaper, taken from the state in which the batch
`d` is already processed, lands in the state in which `d ++ [f]` is
processed. -/
theorem sweep_step (s3 : S3Client) (db : DB) (now : Int)
    (hnd : (db.files.map FileRec.id).Nodup)
    (hnu : (db.uploads.map UploadRec.id).Nodup)
    (d : List FileRec) (f : FileRec)
    (hmem : f ∈ db.files) (hstale : is_stale now f = true)
    (hdk : f.id ∉ d.map FileRec.id) :
    (abort_multipart_upload s3 (sweep_state db now d) now f.id f.user_id).2.1 =
      sweep_state db now (d ++ [f]) := by
  obtain ⟨hgid, hguser, hhfile⟩ := sweep_upd_proj db now d
  have hinit : f.status = FileStatus.initiated := by
    unfold is_stale at hstale
    simp only [Bool.and_eq_true, beq_iff_eq] at hstale
    exact hstale.2
  have hinit' : (f.status != FileStatus.initiated) = false := by rw [hinit]; rfl
  have hdkany : d.any (fun s => s.id == f.id) = false := by
    rw [List.any_eq_false]
    intro s hs hbeq
    rw [beq_iff_eq] at hbeq
    exact hdk (hbeq ▸ List.mem_map_of_mem FileRec.id hs)
  have hgdf : sweep_file_upd db now d f = f := by
    unfold sweep_file_upd
    rw [hdkany]
    simp
  have hfilterf :
      db.files.filter (fun x => x.id == f.id && x.user_id == f.user_id) = [f] := by
    apply filter_eq_single_of_nodup FileRec.id _ db.files f hnd hmem (by simp)
    intro x _ hpx
    simp only [Bool.and_eq_true, beq_iff_eq] at hpx
    exact hpx.1
  have hlookup : get_file_by_id (sweep_state db now d) f.id f.user_id = some f := by
    unfold get_file_by_id sweep_state
    rw [filter_map_comm _ _ (fun x => by rw [hgid x, hguser x]) db.files]
    rw [hfilterf]
    simp [hgdf]
  have hfu_eq : file_upload (sweep_state db now d) f =
      Option.map (sweep_upload_upd db d) (file_upload db f) := by
    unfold file_upload sweep_state
    rw [filter_map_comm _ _ (fun u => by rw [hhfile u]) db.uploads]
    rw [List.head?_map]
  cases hfu : file_upload db f with
  | none =>
    have hfusw : file_upload (sweep_state db now d) f = none := by
      rw [hfu_eq, hfu]
      rfl
    have habort :
        (abort_multipart_upload s3 (sweep_state db now d) now f.id f.user_id).2.1 =
          sweep_state db now d := by
      unfold abort_multipart_upload
      rw [hlookup]
      simp only [hinit', Bool.false_eq_true, if_false]
      rw [hfusw]
    rw [habort]
    unfold sweep_state
    have hfiles : db.files.map (sweep_file_upd db now d) =
        db.files.map (sweep_file_upd db now (d ++ [f])) := by
      apply List.map_congr_left
      intro x hx
      unfold sweep_file_upd
      rw [List.any_append]
      by_cases hxf : (f.id == x.id) = true
      · have hxeq : x = f :=
          List.inj_on_of_nodup_map hnd hx hmem (beq_iff_eq.mp hxf).symm
        subst hxeq
        rw [hfu]
        simp
      · simp only [List.any_cons, List.any_nil, Bool.or_false]
        rw [Bool.eq_false_iff.mpr hxf]
        simp
    have huploads : db.uploads.map (sweep_upload_upd db d) =
        db.uploads.map (sweep_upload_upd db (d ++ [f])) := by
      apply List.map_congr_left
      intro u _
      unfold sweep_upload_upd
      rw [List.any_append]
      simp only [List.any_cons, List.any_nil, Bool.or_false]
      rw [hfu]
      simp
    rw [hfiles, huploads]
  | some u0 =>
    obtain ⟨hu0mem, hu0fid⟩ := file_upload_spec hfu
    have hu0d : d.any (fun s => file_upload db s == some u0) = false := by
      rw [List.any_eq_false]
      intro s hs hbeq
      rw [beq_iff_eq] at hbeq
      have hsid := (file_upload_spec hbeq).2
      have : s.id = f.id := by rw [← hsid, hu0fid]
      exact hdk (this ▸ List.mem_map_of_mem FileRec.id hs)
    have hhdu0 : sweep_upload_upd db d u0 = u0 := by
      unfold sweep_upload_upd
      rw [hu0d]
      simp
    have hfusw : file_upload (sweep_state db now d) f = some u0 := by
      rw [hfu_eq, hfu, Option.map_some', hhdu0]
    have habort :
        (abort_multipart_upload s3 (sweep_state db now d) now f.id f.user_id).2.1 =
          { sweep_state db now d with
              files := (sweep_state db now d).files.map (fun x =>
                if x.id == f.id then
                  { f with status := FileStatus.failed, updated_at := now } else x),
              uploads := (sweep_state db now d).uploads.map (fun u =>
                if u.id == u0.id then
                  { u0 with status := UploadStatus.aborted } else u) } := by
      unfold abort_multipart_upload
      rw [hlookup]
      simp only [hinit', Bool.false_eq_true, if_false]
      rw [hfusw]
    rw [habort]
    unfold sweep_state
    have hfiles : (db.files.map (sweep_file_upd db now d)).map (fun x =>
        if x.id == f.id then
          { f with status := FileStatus.failed, updated_at := now } else x) =
        db.files.map (sweep_file_upd db now (d ++ [f])) := by
      rw [List.map_map]
      apply List.map_congr_left
      intro x hx
      show (if (sweep_file_upd db now d x).id == f.id then
          { f with status := FileStatus.failed, updated_at := now }
        else sweep_file_upd db now d x) = sweep_file_upd db now (d ++ [f]) x
      rw [hgid x]
      by_cases hxf : (x.id == f.id) = true
      · have hxeq : x = f :=
          List.inj_on_of_nodup_map hnd hx hmem (beq_iff_eq.mp hxf)
        subst hxeq
        rw [hxf, hgdf]
        unfold sweep_file_upd
        rw [List.any_append]
        simp [hfu]
      · rw [Bool.eq_false_iff.mpr hxf]
        simp only [Bool.false_eq_true, if_false]
        unfold sweep_file_upd
        rw [List.any_append]
        simp only [List.any_cons, List.any_nil, Bool.or_false]
        have : (f.id == x.id) = false := by
          apply beq_eq_false_iff_ne.mpr
          intro h
          exact Bool.eq_false_iff.mp (Bool.eq_false_iff.mpr hxf) (beq_iff_eq.mpr h.symm)
        rw [this]
        simp
    have huploads : (db.uploads.map (sweep_upload_upd db d)).map (fun u =>
        if u.id == u0.id then { u0 with status := UploadStatus.aborted } else u) =
        db.uploads.map (sweep_upload_upd db (d ++ [f])) := by
      rw [List.map_map]
      apply List.map_congr_left
      intro u hu
      show (if (sweep_upload_upd db d u).id == u0.id then
          { u0 with status := UploadStatus.aborted }
        else sweep_upload_upd db d u) = sweep_upload_upd db (d ++ [f]) u
      have hhid : (sweep_upload_upd db d u).id = u.id := by
        unfold sweep_upload_upd
        rw [apply_ite UploadRec.id]
        simp
      rw [hhid]
      by_cases hui : (u.id == u0.id) = true
      · have hueq : u = u0 :=
          List.inj_on_of_nodup_map hnu hu hu0mem (beq_iff_eq.mp hui)
        subst hueq
        rw [hui, hhdu0]
        unfold sweep_upload_upd
        rw [List.any_append]
        simp [hfu]
      · rw [Bool.eq_false_iff.mpr hui]
        simp only [Bool.false_eq_true, if_false]
        unfold sweep_upload_upd
        rw [List.any_append]
        simp only [List.any_cons, List.any_nil, Bool.or_false]
        have hne : (file_upload db f == some u) = false := by
          rw [hfu]
          apply beq_eq_false_iff_ne.mpr
          intro h
          have : u0 = u := by injection h
          exact Bool.eq_false_iff.mp (Bool.eq_false_iff.mpr hui) (beq_iff_eq.mpr (this ▸ rfl))
        rw [hne]
        simp
    rw [hfiles, huploads]

/-- Folding the remaining batch of the sweep from the state where `d` is
processed lands in the state where everything is processed. -/
theorem sweep_go (s3 : S3Client) (db : DB) (now : Int)
    (hnd : (db.files.map FileRec.id).Nodup)
    (hnu : (db.uploads.map UploadRec.id).Nodup) :
    ∀ (todo d : List FileRec),
      db.files.filter (is_stale now) = d ++ todo →
      todo.foldl (fun st f => (abort_multipart_upload s3 st now f.id f.user_id).2.1)
        (sweep_state db now d) = sweep_state db now (d ++ todo) := by
  intro todo
  induction todo with
  | nil =>
    intro d _
    rw [List.append_nil]
    rfl
  | cons f rest ih =>
    intro d hS
    rw [List.foldl_cons]
    have hfS : f ∈ db.files.filter (is_stale now) := by
      rw [hS]
      exact List.mem_append.mpr (Or.inr (List.mem_cons_self f rest))
    have hmemf : f ∈ db.files := List.mem_of_mem_filter hfS
    have hstalef : is_stale now f = true := (List.mem_filter.mp hfS).2
    have hSnodup : ((db.files.filter (is_stale now)).map FileRec.id).Nodup :=
      List.Nodup.sublist (List.Sublist.map FileRec.id (List.filter_sublist db.files)) hnd
    have hdk : f.id ∉ d.map FileRec.id := by
      rw [hS, List.map_append] at hSnodup
      have hdisj := List.disjoint_of_nodup_append hSnodup
      intro hmem'
      exact hdisj hmem' (by rw [List.map_cons]; exact List.mem_cons_self _ _)
    rw [sweep_step s3 db now hnd hnu d f hmemf hstalef hdk]
    have hrest := ih (d ++ [f]) (by rw [hS, List.append_assoc, List.singleton_append])
    rw [hrest, List.append_assoc, List.singleton_append]

/-- C8: one reaper cycle rewrites the store as follows — every INITIATED
file older than the 12-hour threshold that has an upload row becomes
FAILED (with its timestamp refreshed) and its upload becomes ABORTED,
exactly once; every other file and upload, in particular any file updated
within the last 12 hours, is untouched; part rows are untouched.  The
per-file guard `(file_upload db x).isSome` is the isolation clause: a
candidate whose abort raises (no upload row) is skipped without stopping
the sweep over the rest. -/
theorem reaper_sweep (s3 : S3Client) (db : DB) (now : Int)
    (hnd : (db.files.map FileRec.id).Nodup)
    (hnu : (db.uploads.map UploadRec.id).Nodup) :
    clean_files s3 db now =
      { db with
          files := db.files.map (fun x =>
            if is_stale now x && (file_upload db x).isSome then
              { x with status := FileStatus.failed, updated_at := now } else x),
          uploads := db.uploads.map (fun u =>
            if db.files.any (fun x => is_stale now x && (file_upload db x == some u)) then
              { u with status := UploadStatus.aborted } else u) } := by
  have h0 : sweep_state db now [] = db := by
    unfold sweep_state sweep_file_upd sweep_upload_upd
    simp
  have hgo := sweep_go s3 db now hnd hnu (db.files.filter (is_stale now)) []
    (by rw [List.nil_append])
  rw [h0] at hgo
  unfold clean_files
  rw [hgo, List.nil_append]
  unfold sweep_state
  have hfiles : db.files.map (sweep_file_upd db now (db.files.filter (is_stale now))) =
      db.files.map (fun x =>
        if is_stale now x && (file_upload db x).isSome then
          { x with status := FileStatus.failed, updated_at := now } else x) := by
    apply List.map_congr_left
    intro x hx
    unfold sweep_file_upd
    have hcond : (db.files.filter (is_stale now)).any (fun s => s.id == x.id) =
        is_stale now x := by
      cases hst : is_stale now x
      · rw [List.any_eq_false]
        intro s hs hbeq
        have hsmem := List.mem_filter.mp hs
        have hseq : s = x :=
          List.inj_on_of_nodup_map hnd (List.mem_of_mem_filter hs) hx (beq_iff_eq.mp hbeq)
        rw [hseq] at hsmem
        exact Bool.eq_false_iff.mp hst hsmem.2
      · rw [List.any_eq_true]
        exact ⟨x, List.mem_filter.mpr ⟨hx, hst⟩, by simp⟩
    rw [hcond]
  have huploads : db.uploads.map (sweep_upload_upd db (db.files.filter (is_stale now))) =
      db.uploads.map (fun u =>
        if db.files.any (fun x => is_stale now x && (file_upload db x == some u)) then
          { u with status := UploadStatus.aborted } else u) := by
    apply List.map_congr_left
    intro u _
    unfold sweep_upload_upd
    rw [List.any_filter]
  rw [hfiles, huploads]

/-- Witness for C8 on `dbSweep` at `now = 50000`: file 10 (idle 50000 s)
is reaped to FAILED with its upload ABORTED, file 11 (idle 3600 s) and
its upload are untouched. -/
theorem reaper_sweep_witness :
    clean_files s3ok dbSweep 50000 =
      { dbSweep with
          files := dbSweep.files.map (fun x =>
            if is_stale 50000 x && (file_upload dbSweep x).isSome then
              { x with status := FileStatus.failed, updated_at := 50000 } else x),
          uploads := dbSweep.uploads.map (fun u =>
            if dbSweep.files.any
                (fun x => is_stale 50000 x && (file_upload dbSweep x == some u)) then
              { u with status := UploadStatus.aborted } else u) } :=
  reaper_sweep s3ok dbSweep 50000 (by decide) (by decide)

end Bytestore
